import Mathlib

/-!
Verification development for `flip-docs/resources/experiments/basic-pareto.py`.

The script is a linear plotting program: it builds snapshot file paths from an
index, defines a reference Pareto density, lays out four subplots (three bar
plots of density snapshots plus a KL-divergence curve), saves the figure twice,
and saves two animations.  We embed its definitions shallowly: Python integers
become `Int`, Python `str` on integers becomes `pyStrInt`, floats in the
script (all of which are exact decimals) become `ℚ`, and the calls into the
plotting helpers are recorded as data structures together with a trace
semantics for the file effects described by the specification.
-/

namespace BasicPareto

/-! ### Python `str` on integers -/

/-- The decimal digit character `chr(ord(0) + d)` used by Python's decimal
rendering of integers. -/
def digitChar (d : Nat) : Char := Char.ofNat (48 + d)

/-- Inverse of `digitChar` on actual digits. -/
def undigitChar (c : Char) : Nat := c.toNat - 48

/-- Base-10 digits of `n`, least significant first, with explicit fuel so the
recursion is structural. -/
def toDigitsRev : Nat → Nat → List Nat
  | _, 0 => []
  | 0, _ + 1 => []
  | fuel + 1, n + 1 => ((n + 1) % 10) :: toDigitsRev fuel ((n + 1) / 10)

/-- Value of a least-significant-first digit list. -/
def ofDigitsRev : List Nat → Nat
  | [] => 0
  | d :: ds => d + 10 * ofDigitsRev ds

/-- Embedding of Python `str(n)` for a non-negative integer `n`. -/
def pyStrNat (n : Nat) : String :=
  if n = 0 then "0" else ⟨((toDigitsRev n n).reverse.map digitChar)⟩

/-- Embedding of Python `str(i)` for an arbitrary integer `i`: a minus sign
followed by the decimal digits when `i < 0`. -/
def pyStrInt : Int → String
  | .ofNat n => pyStrNat n
  | .negSucc n => "-" ++ pyStrNat (n + 1)

/-- Decimal parse of the string produced by `pyStrNat`. -/
def parseNat (s : String) : Nat :=
  ofDigitsRev (s.data.reverse.map undigitChar)

/-- Decimal parse of the string produced by `pyStrInt`. -/
def parseInt (s : String) : Int :=
  match s.data with
  | '-' :: rest => -(ofDigitsRev (rest.reverse.map undigitChar) : Int)
  | _ => (parseNat s : Int)

/-! ### The script's own definitions -/

/-- `name = "basic-pareto"` (line 9). -/
def name : String := "basic-pareto"

/-- `dir = "../../../flip-bench/experiments/basic-pareto/"` (line 10). -/
def dir : String := "../../../flip-bench/experiments/basic-pareto/"

/-- `data_loc(i)` (lines 12-13): `dir + "basic-pareto-pdf-" + str(i) + ".out"`. -/
def data_loc (i : Int) : String :=
  dir ++ "basic-pareto-pdf-" ++ pyStrInt i ++ ".out"

/-- `scipy.stats.pareto.pdf(x, b)` for a natural shape parameter `b`:
density `b / x^(b+1)` on the support `x ≥ 1` and `0` elsewhere. -/
def pareto_pdf (x : ℚ) (b : Nat) : ℚ :=
  if 1 ≤ x then (b : ℚ) / x ^ (b + 1) else 0

/-- `expected(x, i = -1)` (lines 15-16): `pareto.pdf(x, 1)`; the second
argument is accepted and ignored, defaulting to `-1`. -/
def expected (x : ℚ) (_i : Int := -1) : ℚ :=
  pareto_pdf x 1

/-- `xmin = 0` (line 21). -/
def xmin : ℚ := 0
/-- `xmax = 10` (line 22). -/
def xmax : ℚ := 10
/-- `ymin = 0` (line 23). -/
def ymin : ℚ := 0
/-- `ymax = 1` (line 24). -/
def ymax : ℚ := 1

/-- `data_counts = [40, 60, 220]` (line 28). -/
def data_counts : List Int := [40, 60, 220]

/-- `countmin = 40` (line 40). -/
def countmin : Int := 40
/-- `countmax = 500` (line 41). -/
def countmax : Int := 500
/-- `rearr_start = 50` (line 42). -/
def rearr_start : Int := 50
/-- `rearr_period = 100` (line 43). -/
def rearr_period : Int := 100
/-- `kld_max = 0.25` (line 44). -/
def kld_max : ℚ := 1 / 4

/-- `kld_data_loc = dir + "basic-pareto-kld.out"` (line 46). -/
def kld_data_loc : String := dir ++ "basic-pareto-kld.out"

/-! ### The figure's subplots

The script builds one matplotlib figure holding four subplots: a
`pdfplt.pdfplot_bar` call for each entry of `data_counts` (lines 30-36) and a
single `kldplt.kldplot` call (lines 48-51).  We record each subplot as the
parameters the script passes to the helper that renders it. -/

/-- The rendering call placed on one subplot: either a density bar plot
compared against a reference density, or the KL-divergence curve. -/
inductive PlotKind where
  | pdfBar (ref : ℚ → Int → ℚ) (dataPath : String) (xmin xmax ymin ymax : ℚ)
  | kldCurve (dataPath : String) (kldMax : ℚ)
      (countmin countmax rearrStart rearrPeriod : Int)

/-- One `plt.subplot(rows, cols, index)` of the figure together with its title
and the rendering call issued on it. -/
structure Subplot where
  rows : Nat
  cols : Nat
  index : Nat
  title : String
  kind : PlotKind

/-- The four subplots the script creates, in creation order: the loop over
`data_counts` (lines 30-36) followed by the KLD subplot (lines 48-51).
The title of the `i`-th loop subplot is
`"(" + chr(ord(a) + i) + ")" + " pdf at update count: " + str(data_count)`. -/
def staticSubplots : List Subplot :=
  (data_counts.enum.map fun p =>
    { rows := 1
      cols := data_counts.length + 1
      index := p.1 + 1
      title := "(" ++ String.mk [Char.ofNat ('a'.toNat + p.1)] ++ ")" ++
        " pdf at update count: " ++ pyStrInt p.2
      kind := PlotKind.pdfBar (@expected) (data_loc p.2) xmin xmax ymin ymax })
  ++ [{ rows := 1
        cols := data_counts.length + 1
        index := data_counts.length + 1
        title := "(d) KL-divergence"
        kind := PlotKind.kldCurve kld_data_loc kld_max countmin countmax
          rearr_start rearr_period }]

/-- Whether a subplot carries a `pdfplot_bar` call. -/
def isPdfBar (s : Subplot) : Bool :=
  match s.kind with
  | PlotKind.pdfBar _ _ _ _ _ _ => true
  | _ => false

/-- The divergence-file path of a subplot, when it carries a `kldplot` call. -/
def kldPathOf (s : Subplot) : Option String :=
  match s.kind with
  | PlotKind.kldCurve p _ _ _ _ _ => some p
  | _ => none

/-! ### The animations -/

/-- `start = 10` (line 62). -/
def start : Int := 10
/-- `end = 500` (line 63); `end` is a Lean keyword, hence the underscore. -/
def end_ : Int := 500
/-- `step = 10` (line 64). -/
def step : Int := 10
/-- `fps = 4` (line 65). -/
def fps : Int := 4

/-- The plotting style of an animation helper: `animated_pdfplot_errorbar`
versus `animated_pdfplot_bar`. -/
inductive AnimStyle where
  | errorbar
  | bar
  deriving DecidableEq

/-- The parameters of one `pdfplt.animated_pdfplot_*` call:
`(data_loc, start, end, step, expected, xmin, xmax, ymin, ymax)` plus the
choice of helper. -/
structure AnimChart where
  loc : Int → String
  start : Int
  stop : Int
  step : Int
  ref : ℚ → Int → ℚ
  xmin : ℚ
  xmax : ℚ
  ymin : ℚ
  ymax : ℚ
  style : AnimStyle

/-- The parameters of one `.save(filename, writer=..., fps=...)` call. -/
structure SaveCall where
  chart : AnimChart
  filename : String
  writer : String
  fps : Int

/-- `utd_animation1 = pdfplt.animated_pdfplot_errorbar(data_loc, start, end,
step, expected, xmin, xmax, ymin, ymax)` (line 67). -/
def utd_animation1 : AnimChart :=
  { loc := data_loc, start := start, stop := end_, step := step
    ref := @expected, xmin := xmin, xmax := xmax, ymin := ymin, ymax := ymax
    style := AnimStyle.errorbar }

/-- `utd_animation2 = pdfplt.animated_pdfplot_bar(data_loc, start, end, step,
expected, xmin, xmax, ymin, ymax)` (line 71). -/
def utd_animation2 : AnimChart :=
  { loc := data_loc, start := start, stop := end_, step := step
    ref := @expected, xmin := xmin, xmax := xmax, ymin := ymin, ymax := ymax
    style := AnimStyle.bar }

/-- `utd_animation1.save(name + "-errorbar.gif", writer="imagemagick",
fps=fps)` (line 68). -/
def utd_animation1_save : SaveCall :=
  { chart := utd_animation1, filename := name ++ "-errorbar.gif"
    writer := "imagemagick", fps := fps }

/-- `utd_animation2.save(name + "-histo.gif", writer="imagemagick", fps=fps)`
(line 72). -/
def utd_animation2_save : SaveCall :=
  { chart := utd_animation2, filename := name ++ "-histo.gif"
    writer := "imagemagick", fps := fps }

/-! ### Effect trace semantics

The bodies of the helpers (`pdfplot`, `kldplot`, `preprocessing`) belong to
this repository but are not in the provided sources, so their externally
visible behaviour is modelled from the specification: each plotting call reads
exactly the data file it is handed, each save writes exactly its output
artifact, and nothing reads or writes the environment.  The script itself is
a straight line of statements with no exception handler, so a failing
statement aborts everything after it. -/

/-- An externally visible effect of one statement. -/
inductive Eff where
  | readF (path : String)
  | writeF (path : String)
  | readEnvVar (varName : String)
  | writeEnvVar (varName : String)
  deriving DecidableEq

/-- One statement of the script, reduced to its externally visible behaviour:
the input files it needs (it fails when one is missing) and the output files
it writes. -/
structure Step where
  needs : List String
  writes : List String
  deriving DecidableEq

/-- The effects a successfully executed statement contributes to the trace. -/
def Step.effects (s : Step) : List Eff :=
  s.needs.map Eff.readF ++ s.writes.map Eff.writeF

/-- The update counts the animation helpers sweep over, from `a` to `b`
inclusive in steps of `s`. -/
def sweepCounts (a b s : Int) : List Int :=
  (List.range (((b - a) / s).toNat + 1)).map fun k => a + s * (k : Int)

/-- Modelled from the spec: the animation helpers (`animated_pdfplot_*`, not
under the provided sources) sweep "the density snapshots across a range of
update counts", from `start` to `end` in steps of `step`. -/
def animFrameCounts : List Int := sweepCounts start end_ step

/-- The statements of the script that touch the file system, in program
order.  Modelled from the spec for the helper bodies that are not under the
provided sources: each `pdfplot_bar`/`kldplot` call reads exactly the data
file it is handed, `plt.savefig` writes exactly its target, and each
animation save reads the swept snapshot files and writes its gif. -/
def script_steps : List Step :=
  (data_counts.map fun c => { needs := [data_loc c], writes := [] })
  ++ [{ needs := [kld_data_loc], writes := [] }]
  ++ [{ needs := [], writes := [name ++ ".pdf"] }]
  ++ [{ needs := [], writes := [name ++ ".png"] }]
  ++ [{ needs := animFrameCounts.map data_loc
        writes := [name ++ "-errorbar.gif"] }]
  ++ [{ needs := animFrameCounts.map data_loc
        writes := [name ++ "-histo.gif"] }]

/-- Run a list of statements against a file system `fs` (presence predicate):
each statement needs all its input files; the first statement with a missing
input aborts the run (second component `false`), and nothing after it
executes.  The first component is the effect trace actually produced. -/
def runSteps (fs : String → Bool) : List Step → List Eff × Bool
  | [] => ([], true)
  | s :: rest =>
    if s.needs.all fs then
      (s.effects ++ (runSteps fs rest).1, (runSteps fs rest).2)
    else ([], false)

/-- Run the whole script against a file system. -/
def runScript (fs : String → Bool) : List Eff × Bool :=
  runSteps fs script_steps

/-- Every input file some statement of the script needs. -/
def requiredInputs : List String :=
  (script_steps.map Step.needs).flatten

/-- The file paths written along a trace. -/
def writesOf (t : List Eff) : List String :=
  t.filterMap fun e =>
    match e with
    | Eff.writeF p => some p
    | _ => none

/-- The environment accesses along a trace. -/
def envTouches (t : List Eff) : List Eff :=
  t.filter fun e =>
    match e with
    | Eff.readEnvVar _ => true
    | Eff.writeEnvVar _ => true
    | _ => false

/-! ### Round-trip lemmas for the decimal rendering -/

theorem ofDigitsRev_toDigitsRev (fuel : Nat) :
    ∀ n, n ≤ fuel → ofDigitsRev (toDigitsRev fuel n) = n := by
  induction fuel with
  | zero =>
    intro n hn
    obtain rfl : n = 0 := Nat.le_zero.mp hn
    rfl
  | succ f ih =>
    intro n hn
    match n with
    | 0 => rfl
    | m + 1 =>
      have hdiv : (m + 1) / 10 ≤ f := by
        have := Nat.div_lt_self (Nat.succ_pos m) (by norm_num : 1 < 10)
        omega
      calc ofDigitsRev (toDigitsRev (f + 1) (m + 1))
          = (m + 1) % 10 + 10 * ofDigitsRev (toDigitsRev f ((m + 1) / 10)) :=
            rfl
        _ = (m + 1) % 10 + 10 * ((m + 1) / 10) := by rw [ih _ hdiv]
        _ = m + 1 := Nat.mod_add_div (m + 1) 10

theorem toDigitsRev_lt (fuel : Nat) :
    ∀ n d, d ∈ toDigitsRev fuel n → d < 10 := by
  induction fuel with
  | zero =>
    intro n d hd
    match n with
    | 0 => simp [toDigitsRev] at hd
    | _ + 1 => simp [toDigitsRev] at hd
  | succ f ih =>
    intro n d hd
    match n with
    | 0 => simp [toDigitsRev] at hd
    | m + 1 =>
      simp only [toDigitsRev, List.mem_cons] at hd
      rcases hd with h | h
      · subst h
        exact Nat.mod_lt _ (by norm_num)
      · exact ih _ _ h

theorem undigitChar_digitChar : ∀ d < 10, undigitChar (digitChar d) = d := by
  decide

theorem digitChar_ne_dash : ∀ d < 10, digitChar d ≠ '-' := by decide

theorem map_digitChar_cancel (l : List Nat) (h : ∀ d ∈ l, d < 10) :
    (l.map digitChar).map undigitChar = l := by
  induction l with
  | nil => rfl
  | cons d ds ih =>
    simp only [List.map_cons, List.cons.injEq]
    exact ⟨undigitChar_digitChar d (h d (List.mem_cons_self d ds)),
      ih fun x hx => h x (List.mem_cons_of_mem d hx)⟩

theorem parseNat_pyStrNat (n : Nat) : parseNat (pyStrNat n) = n := by
  by_cases h : n = 0
  · subst h
    rfl
  · unfold parseNat pyStrNat
    rw [if_neg h]
    show ofDigitsRev
      ((((toDigitsRev n n).reverse.map digitChar)).reverse.map undigitChar) = n
    rw [List.map_reverse,
      map_digitChar_cancel _ fun d hd =>
        toDigitsRev_lt n n d (List.mem_reverse.mp hd),
      List.reverse_reverse, ofDigitsRev_toDigitsRev n n le_rfl]

theorem pyStrNat_head (n : Nat) :
    ∃ d rest, d < 10 ∧ (pyStrNat n).data = digitChar d :: rest := by
  by_cases h : n = 0
  · subst h
    exact ⟨0, [], by norm_num, by decide⟩
  · obtain ⟨m, rfl⟩ := Nat.exists_eq_succ_of_ne_zero h
    have hcons : toDigitsRev (m + 1) (m + 1) =
        ((m + 1) % 10) :: toDigitsRev m ((m + 1) / 10) := rfl
    have hne : toDigitsRev (m + 1) (m + 1) ≠ [] := by
      rw [hcons]
      exact List.cons_ne_nil _ _
    cases hrev : (toDigitsRev (m + 1) (m + 1)).reverse with
    | nil => exact absurd (List.reverse_eq_nil_iff.mp hrev) hne
    | cons d t =>
      refine ⟨d, t.map digitChar, ?_, ?_⟩
      · have hmem : d ∈ (toDigitsRev (m + 1) (m + 1)).reverse := by
          rw [hrev]
          exact List.mem_cons_self d t
        exact toDigitsRev_lt _ _ d (List.mem_reverse.mp hmem)
      · show ((toDigitsRev (m + 1) (m + 1)).reverse.map digitChar) =
          digitChar d :: t.map digitChar
        rw [hrev, List.map_cons]

theorem string_data_append (a b : String) :
    (a ++ b).data = a.data ++ b.data := rfl

theorem parseInt_pyStrInt (i : Int) : parseInt (pyStrInt i) = i := by
  cases i with
  | ofNat n =>
    show parseInt (pyStrNat n) = Int.ofNat n
    obtain ⟨d, rest, hd, hdata⟩ := pyStrNat_head n
    unfold parseInt
    rw [hdata]
    split
    · next r heq =>
      exact absurd (List.head_eq_of_cons_eq heq) (digitChar_ne_dash d hd)
    · show (parseNat (pyStrNat n) : Int) = Int.ofNat n
      rw [parseNat_pyStrNat]
      rfl
  | negSucc n =>
    show parseInt ("-" ++ pyStrNat (n + 1)) = Int.negSucc n
    unfold parseInt
    rw [string_data_append, show ("-" : String).data = ['-'] from rfl,
      List.singleton_append]
    split
    · next r heq =>
      obtain rfl : (pyStrNat (n + 1)).data = r :=
        List.tail_eq_of_cons_eq heq
      have hval := parseNat_pyStrNat (n + 1)
      unfold parseNat at hval
      rw [hval, Int.negSucc_eq]
      push_cast
      ring
    · next hno =>
      exact absurd rfl (hno _)

theorem pyStrInt_injective {i j : Int} (h : pyStrInt i = pyStrInt j) :
    i = j := by
  rw [← parseInt_pyStrInt i, ← parseInt_pyStrInt j, h]

/-! ### Claims -/

/-- C1: for every integer index `i`, `data_loc i` is exactly the fixed string
template with `str(i)` substituted:
`"../../../flip-bench/experiments/basic-pareto/basic-pareto-pdf-" + str(i) +
".out"`. -/
theorem claim1_data_loc_template (i : Int) :
    data_loc i =
      "../../../flip-bench/experiments/basic-pareto/basic-pareto-pdf-" ++
        pyStrInt i ++ ".out" := by
  have h : dir ++ "basic-pareto-pdf-" =
      "../../../flip-bench/experiments/basic-pareto/basic-pareto-pdf-" := by
    decide
  show dir ++ "basic-pareto-pdf-" ++ pyStrInt i ++ ".out" = _
  rw [h]

/-- C2: for every non-negative input `x`, `expected x` is the standard Pareto
density with shape parameter 1: `1 / x ^ 2` for `x ≥ 1` and `0` for
`0 ≤ x < 1`. -/
theorem claim2_expected_pareto_density (x : ℚ) (_hx : 0 ≤ x) :
    expected x = if 1 ≤ x then 1 / x ^ 2 else 0 := by
  simp [expected, pareto_pdf]

/-- Witness for C2 at `x = 4`. -/
theorem claim2_expected_pareto_density_witness :
    expected 4 = (if (1 : ℚ) ≤ 4 then 1 / 4 ^ 2 else 0) :=
  claim2_expected_pareto_density 4 (by norm_num)

/-- C5: `expected` is a pure function of its first argument only: the second
argument (Python's optional `i`, default `-1`) has no influence on the
output, and the explicit application agrees with the default one. -/
theorem claim5_expected_ignores_index (x : ℚ) (i j : Int) :
    expected x i = expected x j ∧ expected x i = expected x :=
  ⟨rfl, rfl⟩

/-- C8: `data_loc` is injective on integer indices: distinct snapshot indices
never reference the same file. -/
theorem claim8_data_loc_injective (i j : Int) (hij : i ≠ j) :
    data_loc i ≠ data_loc j := by
  intro h
  apply hij
  apply pyStrInt_injective
  apply String.ext
  have h' := congrArg String.data h
  simp only [data_loc, string_data_append] at h'
  exact List.append_cancel_left (List.append_cancel_right h')

/-- Witness for C8 at the pair `(1, 2)`. -/
theorem claim8_data_loc_injective_witness :
    data_loc 1 ≠ data_loc 2 :=
  claim8_data_loc_injective 1 2 (by decide)

/-- C6: the figure contains exactly three static density subplots, one per
update count in `[40, 60, 220]` in that order; they are the first three
subplots, and the one for count `c` renders the snapshot file `data_loc c` as
a bar plot against the reference density `expected` with axis bounds
`xmin = 0`, `xmax = 10`, `ymin = 0`, `ymax = 1`. -/
theorem claim6_static_pdf_subplots :
    (staticSubplots.filter isPdfBar).length = 3 ∧
    (staticSubplots.filter isPdfBar).map Subplot.kind =
      data_counts.map
        (fun c => PlotKind.pdfBar (@expected) (data_loc c) 0 10 0 1) ∧
    staticSubplots.filter isPdfBar = staticSubplots.take 3 ∧
    data_counts = [40, 60, 220] :=
  ⟨rfl, rfl, rfl, rfl⟩

/-- C7: the divergence series is read from the single fixed path
`dir ++ "basic-pareto-kld.out"`, i.e.
`"../../../flip-bench/experiments/basic-pareto/basic-pareto-kld.out"`, and
that path is passed to exactly one `kldplot` call, which renders the last of
the four subplots. -/
theorem claim7_kld_path :
    kld_data_loc =
      "../../../flip-bench/experiments/basic-pareto/basic-pareto-kld.out" ∧
    staticSubplots.map kldPathOf = [none, none, none, some kld_data_loc] ∧
    staticSubplots.length = 4 := by
  refine ⟨by decide, rfl, rfl⟩

/-- C9: the two saved animations are generated over the identical frame range
(update counts from 10 to 500 in steps of 10), with the same snapshot-path
function `data_loc`, the same reference density `expected`, and the same axis
bounds `(0, 10, 0, 1)`; both are saved with the imagemagick writer at 4
frames per second; they differ only in plot style (errorbar versus bar). -/
theorem claim9_animations_agree :
    utd_animation1.loc = data_loc ∧ utd_animation2.loc = data_loc ∧
    utd_animation1.start = 10 ∧ utd_animation1.stop = 500 ∧
    utd_animation1.step = 10 ∧
    utd_animation2.start = 10 ∧ utd_animation2.stop = 500 ∧
    utd_animation2.step = 10 ∧
    utd_animation1.ref = @expected ∧ utd_animation2.ref = @expected ∧
    utd_animation1.xmin = 0 ∧ utd_animation1.xmax = 10 ∧
    utd_animation1.ymin = 0 ∧ utd_animation1.ymax = 1 ∧
    utd_animation2.xmin = 0 ∧ utd_animation2.xmax = 10 ∧
    utd_animation2.ymin = 0 ∧ utd_animation2.ymax = 1 ∧
    utd_animation1_save.writer = "imagemagick" ∧
    utd_animation2_save.writer = "imagemagick" ∧
    utd_animation1_save.fps = 4 ∧ utd_animation2_save.fps = 4 ∧
    utd_animation1.style = AnimStyle.errorbar ∧
    utd_animation2.style = AnimStyle.bar ∧
    utd_animation1.style ≠ utd_animation2.style :=
  ⟨rfl, rfl, rfl, rfl, rfl, rfl, rfl, rfl, rfl, rfl, rfl, rfl, rfl, rfl,
    rfl, rfl, rfl, rfl, rfl, rfl, rfl, rfl, rfl, rfl, by decide⟩

/-- C10: the four subplot titles, in creation order, are exactly
`"(a) pdf at update count: 40"`, `"(b) pdf at update count: 60"`,
`"(c) pdf at update count: 220"` and `"(d) KL-divergence"`; the letter labels
form the consecutive alphabetic sequence a, b, c, d. -/
theorem claim10_titles :
    staticSubplots.map Subplot.title =
      ["(a) pdf at update count: 40", "(b) pdf at update count: 60",
        "(c) pdf at update count: 220", "(d) KL-divergence"] := by
  decide

/-! ### Trace lemmas for the whole-script claims -/

theorem runSteps_complete (fs : String → Bool) :
    ∀ steps : List Step, (∀ s ∈ steps, s.needs.all fs = true) →
      runSteps fs steps = ((steps.map Step.effects).flatten, true) := by
  intro steps
  induction steps with
  | nil => intro _; rfl
  | cons s rest ih =>
    intro h
    have hs : s.needs.all fs = true := h s (List.mem_cons_self s rest)
    have ht := ih fun p hp => h p (List.mem_cons_of_mem s hp)
    simp [runSteps, hs, ht]

theorem runSteps_aborts (fs : String → Bool) :
    ∀ (pre : List Step) (s : Step) (post : List Step),
      (∀ p ∈ pre, p.needs.all fs = true) → s.needs.all fs = false →
      runSteps fs (pre ++ s :: post) = ((pre.map Step.effects).flatten, false) := by
  intro pre
  induction pre with
  | nil =>
    intro s post _ hs
    simp [runSteps, hs]
  | cons p pre ih =>
    intro s post hpre hs
    have hp : p.needs.all fs = true := hpre p (List.mem_cons_self p pre)
    have ht := ih s post (fun q hq => hpre q (List.mem_cons_of_mem p hq)) hs
    simp [runSteps, hp, ht]

/-- C3: against any file system holding every input file the script needs,
the script runs to completion and its trace writes exactly the four output
artifacts `basic-pareto.pdf`, `basic-pareto.png`, `basic-pareto-errorbar.gif`
and `basic-pareto-histo.gif`, and never touches the environment. -/
theorem claim3_writes_exactly_four (fs : String → Bool)
    (h : ∀ p ∈ requiredInputs, fs p = true) :
    (runScript fs).2 = true ∧
    writesOf (runScript fs).1 =
      ["basic-pareto.pdf", "basic-pareto.png", "basic-pareto-errorbar.gif",
        "basic-pareto-histo.gif"] ∧
    envTouches (runScript fs).1 = [] := by
  have hall : ∀ s ∈ script_steps, s.needs.all fs = true := by
    intro s hs
    rw [List.all_eq_true]
    intro p hp
    refine h p ?_
    simp only [requiredInputs, List.mem_flatten]
    exact ⟨s.needs, List.mem_map_of_mem Step.needs hs, hp⟩
  have hrun : runScript fs = ((script_steps.map Step.effects).flatten, true) :=
    runSteps_complete fs script_steps hall
  rw [hrun]
  exact ⟨rfl, by decide, by decide⟩

/-- Witness for C3 on the file system holding every file. -/
theorem claim3_writes_exactly_four_witness :
    (runScript fun _ => true).2 = true ∧
    writesOf (runScript fun _ => true).1 =
      ["basic-pareto.pdf", "basic-pareto.png", "basic-pareto-errorbar.gif",
        "basic-pareto-histo.gif"] ∧
    envTouches (runScript fun _ => true).1 = [] :=
  claim3_writes_exactly_four (fun _ => true) fun _ _ => rfl

/-- C4: the script installs no exception handler: when the statements before
some failing statement all succeed and that statement fails (a needed input
file is missing), the script aborts there, and the trace holds exactly the
effects of the statements before the failing one — nothing after it
executes. -/
theorem claim4_failure_aborts (fs : String → Bool) (pre : List Step)
    (s : Step) (post : List Step) (hsplit : script_steps = pre ++ s :: post)
    (hpre : ∀ p ∈ pre, p.needs.all fs = true)
    (hs : s.needs.all fs = false) :
    runScript fs = ((pre.map Step.effects).flatten, false) := by
  unfold runScript
  rw [hsplit]
  exact runSteps_aborts fs pre s post hpre hs

/-- Witness for C4: a file system missing only the divergence file makes the
`kldplot` statement fail; the script aborts with just the three snapshot
reads in its trace, and nothing is ever written. -/
theorem claim4_failure_aborts_witness :
    runScript (fun p => !(p == kld_data_loc)) =
      (((script_steps.take 3).map Step.effects).flatten, false) :=
  claim4_failure_aborts (fun p => !(p == kld_data_loc))
    (script_steps.take 3)
    { needs := [kld_data_loc], writes := [] }
    (script_steps.drop 4)
    (by decide) (by decide) (by decide)

end BasicPareto
